import Mathlib

/-!
Verification of the castai-k8s-version-upgrader repository.

Shallow embedding of `src/node_utils.py` and `src/cast_api_utils.py`.
External effects (the Kubernetes control plane, the CAST AI HTTP API, the
wall clock, the `kubectl drain` subprocess) are modelled by explicit
environments: each external call reads its result from an oracle field,
and every call issued is recorded in a trace of operations. Python's
`None` becomes `Option.none`, raised exceptions become `Except.error`,
and Python truthiness of optional strings is modelled explicitly.
-/

/-- Python truthiness of an optional string: `None` and `""` are falsy. -/
def truthyStr : Option String → Bool
  | none => false
  | some s => s ≠ ""

/-- Embedding of `get_node_label_value` (node_utils.py lines 169-194 and
cast_api_utils.py lines 15-34): the `read_node` call's result is passed in
(`Except.error` models an `ApiException`, the inner `Option` models a node
whose `metadata.labels` is `None`).  On an API error, a missing label map
or a missing key it returns `none`; a non-empty label map is looked up.
Python checks `if labels and label_key in labels`; an empty dict is falsy
there, and `List.lookup` on `[]` returns `none`, so the result agrees. -/
def get_node_label_value (readResult : Except Unit (Option (List (String × String))))
    (label_key : String) : Option String :=
  match readResult with
  | .error _ => none
  | .ok none => none
  | .ok (some labels) => labels.lookup label_key

/-- One `template` object of the CAST AI node-template catalog
(`{name, configurationId, customTaints, customLabels}`); fields that
`rotate_node` reads with `.get` and no default are `Option`s. -/
structure CastTemplate where
  name : Option String
  configurationId : Option String
  customTaints : List String
  customLabels : List (String × String)
deriving DecidableEq

/-- One item of the catalog's `items` list; `template` may be absent
(`item.get('template', {})`). -/
structure TemplateItem where
  template : Option CastTemplate
deriving DecidableEq

/-- Embedding of `find_node_template_details` (cast_api_utils.py lines
56-63): first item whose `template.name` equals the requested name; `{}`
(no match) becomes `none`.  An item without a `template` key yields
`.get('name') = None`, which never equals the (string) requested name. -/
def find_node_template_details (items : List TemplateItem) (template_name : String) :
    Option CastTemplate :=
  match items with
  | [] => none
  | it :: rest =>
    match it.template with
    | some t =>
      if t.name = some template_name then some t
      else find_node_template_details rest template_name
    | none => find_node_template_details rest template_name

/-- Python dict assignment `m[k] = v`: overwrite the binding if the key is
present, otherwise append it. -/
def upsertLabel (m : List (String × String)) (k v : String) : List (String × String) :=
  if (m.lookup k).isSome then m.map (fun p => if p.1 = k then (k, v) else p)
  else m ++ [(k, v)]

/-- Embedding of `is_node_older_than` (node_utils.py lines 132-138), with
times in integer seconds: `days == 0` is always stale, otherwise the age
`now - creation` must exceed `timedelta(days=days+1)` seconds. -/
def is_node_older_than (nowSec creationSec : Int) (days : Nat) : Bool :=
  if days = 0 then true
  else nowSec - creationSec > ((days : Int) + 1) * 86400

/-- Python's `str.split(sep)` for a one-character separator, over the
character list: split at every occurrence, keeping empty pieces
(`"a=b=c"` gives `["a","b","c"]`, `""` gives `[""]`, `"="` gives
`["",""]`). -/
def pySplitAux (sep : Char) : List Char → List Char → List String
  | [], acc => [String.mk acc.reverse]
  | c :: cs, acc =>
    if c = sep then String.mk acc.reverse :: pySplitAux sep cs []
    else pySplitAux sep cs (c :: acc)

/-- Python's `s.split(sep)` for a one-character separator. -/
def pySplit (sep : Char) (s : String) : List String :=
  pySplitAux sep s.data []

/-- A pod as `is_node_running_critical_pods` sees it: `metadata.labels`
may be `None`. -/
structure VPod where
  labels : Option (List (String × String))
deriving DecidableEq

/-- The Python exceptions the pod check can raise. -/
inductive PyErr where
  | valueError
  | attributeError
deriving DecidableEq

/-- Inner loop of `is_node_running_critical_pods` (node_utils.py lines
108-111) for one pod: for each critical-workload entry, unpack
`label.split("=")` into exactly two parts (`ValueError` otherwise), then
read `pod.metadata.labels.get(label_key)` (`AttributeError` when the
label map is `None`) and compare. -/
def checkPodEntries (labels : Option (List (String × String))) :
    List String → Except PyErr Bool
  | [] => .ok false
  | entry :: rest =>
    match pySplit '=' entry with
    | [k, v] =>
      match labels with
      | none => .error .attributeError
      | some m =>
        if m.lookup k = some v then .ok true
        else checkPodEntries labels rest
    | _ => .error .valueError

/-- Embedding of `is_node_running_critical_pods` (node_utils.py lines
105-112): iterate the pods scheduled on the node in order, and within
each pod the configured critical-workload entries in order; the first
matching pair returns `true`, an exception point reached first raises. -/
def is_node_running_critical_pods (pods : List VPod) (critical_workloads : List String) :
    Except PyErr Bool :=
  match pods with
  | [] => .ok false
  | p :: rest =>
    match checkPodEntries p.labels critical_workloads with
    | .error e => .error e
    | .ok true => .ok true
    | .ok false => is_node_running_critical_pods rest critical_workloads

/-- A pod carries the pair named by a well-formed `key=value` entry. -/
def podMatchesEntry (p : VPod) (entry : String) : Bool :=
  match p.labels, pySplit '=' entry with
  | some m, [k, v] => m.lookup k = some v
  | _, _ => false

/-- One entry of a node's `status.conditions`. -/
structure NodeCondition where
  type : String
  status : String
deriving DecidableEq

/-- A node as `wait_for_new_nodes` sees it. -/
structure KNode where
  name : String
  conditions : List NodeCondition
deriving DecidableEq

/-- The readiness generator of node_utils.py lines 121-122:
`all(c.status == "True" for c in node.status.conditions if c.type == "Ready")`. -/
def nodeReadyFilter (n : KNode) : Bool :=
  n.conditions.all fun c => if c.type = "Ready" then c.status = "True" else true

/-- `new_nodes` of node_utils.py line 120: names of listed nodes not in
the original set. -/
def new_node_names (nodes : List KNode) (original_nodes : List String) : List String :=
  (nodes.filter fun n => !(original_nodes.contains n.name)).map KNode.name

/-- `ready_new_nodes` of node_utils.py lines 121-122. -/
def ready_new_nodes (nodes : List KNode) (original_nodes : List String) : List KNode :=
  nodes.filter fun n => (new_node_names nodes original_nodes).contains n.name && nodeReadyFilter n

/-- Loop of `wait_for_new_nodes` (node_utils.py lines 118-129): `i` is the
cycle index (feeding the per-cycle `list_node` snapshot oracle), the second
argument the remaining `total_wait_cycles`.  Falling out of the `while`
returns Python's implicit `None`, i.e. `Option.none`. -/
def waitForNewNodesAux (snap : Nat → List KNode) (original_nodes : List String)
    (min_ready : Nat) (i : Nat) : Nat → Option (List String)
  | 0 => none
  | cycles + 1 =>
    let ready := ready_new_nodes (snap i) original_nodes
    if min_ready ≤ ready.length then some (ready.map KNode.name)
    else waitForNewNodesAux snap original_nodes min_ready (i + 1) cycles

/-- Embedding of `wait_for_new_nodes` (node_utils.py lines 115-129);
`MIN_READY_NODES` and `TOTAL_WAIT_CYCLES` are passed as parameters. -/
def wait_for_new_nodes (snap : Nat → List KNode) (original_nodes : List String)
    (min_ready total_wait_cycles : Nat) : Option (List String) :=
  waitForNewNodesAux snap original_nodes min_ready 0 total_wait_cycles

/-- Environment of one `wait_for_node_ready` call: `startTime` is the
`time.time()` taken at entry, `checkTime k` the `time.time()` observed at
the `while` test of iteration `k`, and `poll k` the result of the `k`-th
HTTP status fetch — outer `none` is a `RequestException`, the inner
`Option String` is `node_data.get("state", {}).get("phase")`. -/
structure WaitEnv where
  startTime : Nat
  checkTime : Nat → Nat
  poll : Nat → Option (Option String)

/-- Loop of `wait_for_node_ready` (cast_api_utils.py lines 147-174).
`r` is the `retries` counter (which also indexes the iteration); the fuel
argument only forces termination — the loop itself always exits within
`max_retries + 1` iterations because `retries` grows by one per pass.
Returns the final boolean together with the number of status fetches
performed (a fetch that raises still counts: the HTTP GET was issued). -/
def wfnrAux (checkTime : Nat → Nat) (poll : Nat → Option (Option String))
    (endTime max_retries : Nat) (r : Nat) : Nat → Bool × Nat
  | 0 => (false, 0)
  | fuel + 1 =>
    if checkTime r < endTime then
      if max_retries ≤ r then (false, 0)
      else
        match poll r with
        | some phase =>
          if phase = some "ready" then (true, 1)
          else
            let p := wfnrAux checkTime poll endTime max_retries (r + 1) fuel
            (p.1, p.2 + 1)
        | none =>
          let p := wfnrAux checkTime poll endTime max_retries (r + 1) fuel
          (p.1, p.2 + 1)
    else (false, 0)

/-- Embedding of `wait_for_node_ready` (cast_api_utils.py lines 125-174):
polls until the phase string is exactly `"ready"`, the wall clock passes
`start + timeout_minutes * 60`, or `max_retries` fetches have been made.
`retry_interval_seconds` only feeds `time.sleep`, whose effect is already
inside the `checkTime` oracle. -/
def wait_for_node_ready (w : WaitEnv) (timeout_minutes retry_interval_seconds max_retries : Nat) :
    Bool × Nat :=
  let _ := retry_interval_seconds
  wfnrAux w.checkTime w.poll (w.startTime + timeout_minutes * 60) max_retries 0 (max_retries + 1)

/-- The operations this code issues against its external collaborators:
reads and patches of the Kubernetes control plane and calls of the CAST
AI provisioning API. -/
inductive Op where
  | readNode (node_name : String)
  | getTemplates
  | addNode (instance_type configuration_id : String)
      (labels : Option (List (String × String))) (taints : Option (List String))
  | getNodeStatus
  | listPodsOnNode (node_name : String)
  | patchNode (node_name : String)
  | drainNode (node_name : String)
deriving DecidableEq

/-- Is the operation a create-node (provisioning) call? -/
def Op.isAddNode : Op → Bool
  | .addNode _ _ _ _ => true
  | _ => false

/-- Does the operation mutate the named node (spec patch, label patch or
drain)? Reads and CAST AI provisioning calls do not. -/
def Op.mutates (op : Op) (node_name : String) : Bool :=
  match op with
  | .patchNode n => n = node_name
  | .drainNode n => n = node_name
  | _ => false

/-- Schedulability and label state of the node being drained. -/
structure NodeState where
  unschedulable : Bool
  labels : List (String × String)
deriving DecidableEq

/-- Embedding of `label_node` (node_utils.py lines 141-153): a metadata
patch setting one label, recorded as a patch of the node. -/
def label_node (node_name : String) (st : NodeState) (label_key label_value : String) :
    NodeState × Op :=
  ({ st with labels := upsertLabel st.labels label_key label_value }, Op.patchNode node_name)

/-- Embedding of `uncordon_node` (node_utils.py lines 156-167): a spec
patch setting `unschedulable` to `false`. -/
def uncordon_node (node_name : String) (st : NodeState) : NodeState × Op :=
  ({ st with unschedulable := false }, Op.patchNode node_name)

/-- Embedding of `cordon_node` (node_utils.py lines 59-70): a spec patch
setting `unschedulable` to `true`. -/
def cordon_node (node_name : String) (st : NodeState) : NodeState × Op :=
  ({ st with unschedulable := true }, Op.patchNode node_name)

/-- Outcome of the external `kubectl drain` subprocess: it exits cleanly,
exceeds the caller's timeout (`subprocess.TimeoutExpired`), or fails in
any other way (e.g. `CalledProcessError` from `check=True`). -/
inductive DrainExec where
  | success
  | timeout
  | failure
deriving DecidableEq

/-- Environment of one `drain_node_with_timeout` call: the subprocess
outcome and the pods currently scheduled on the node. -/
structure DrainEnv where
  exec : DrainExec
  podsOnNode : List String
deriving DecidableEq

/-- Modelled from the spec: `dump_pods_on_node` lives in `pod_utils.py`,
which is not part of the sources; the spec describes it as capturing "the
list of pods still scheduled on the node (diagnostic dump)". -/
def dump_pods_on_node (env : DrainEnv) : List String :=
  env.podsOnNode

/-- Embedding of `drain_node_with_timeout` (node_utils.py lines 84-102):
on a clean drain return `none` (no pod list); on `TimeoutExpired` capture
the pods still on the node, apply the `drain-status=failed` label,
uncordon the node and return the captured list; on any other exception
re-raise (`Except.error`).  Returns the Python result, the node state
after the call and the trace of operations issued. -/
def drain_node_with_timeout (node_name : String) (st : NodeState) (env : DrainEnv) :
    Except Unit (Option (List String)) × NodeState × List Op :=
  match env.exec with
  | .success => (.ok none, st, [Op.drainNode node_name])
  | .timeout =>
    let pods := dump_pods_on_node env
    let r1 := label_node node_name st "drain-status" "failed"
    let r2 := uncordon_node node_name r1.1
    (.ok (some pods), r2.1,
      [Op.drainNode node_name, Op.listPodsOnNode node_name, r1.2, r2.2])
  | .failure => (.error (), st, [Op.drainNode node_name])

/-- Environment of one `rotate_node` call: `reads k` is the result of the
`k`-th `read_node` issued by `get_node_label_value` (the function is
called three times, so indices 0..2 are used), `templates` the `items`
list of the fetched catalog (an HTTP error yields `{}`, i.e. `[]`),
`addNode k` the `nodeId` of the `k`-th `add_node` call (`none` for an
HTTP error or a missing `nodeId`), and `waits k` the clock/poll
environment of the `k`-th `wait_for_node_ready` call. -/
structure RotateEnv where
  reads : Nat → Except Unit (Option (List (String × String)))
  templates : List TemplateItem
  addNode : Nat → Option String
  waits : Nat → WaitEnv

/-- Lines 197-203 of cast_api_utils.py: when the scheduling template
label is truthy and the catalog resolves it, extract the configuration
id, the custom labels with the template-name label forced in, and the
custom taints; otherwise all three stay `None`. -/
def resolveTemplateInfo (templates : List TemplateItem)
    (scheduling_node_template : Option String) :
    Option String × Option (List (String × String)) × Option (List String) :=
  match scheduling_node_template with
  | none => (none, none, none)
  | some s =>
    if s = "" then (none, none, none)
    else
      match find_node_template_details templates s with
      | some t =>
        (t.configurationId,
         some (upsertLabel t.customLabels "scheduling.cast.ai/node-template" s),
         some t.customTaints)
      | none => (none, none, none)

/-- Does the `k`-th provisioning attempt succeed end to end: `add_node`
returns a truthy node id and the subsequent `wait_for_node_ready` (7
minute window, 30 second interval, 20 polls) reports ready? -/
def attemptSucceeds (env : RotateEnv) (k : Nat) : Bool :=
  truthyStr (env.addNode k) && (wait_for_node_ready (env.waits k) 7 30 20).1

/-- Retry loop of `rotate_node` (cast_api_utils.py lines 209-240): `k` is
`retry_count`, the fuel is `max_retries - retry_count` (3 at the top
call).  An attempt is issued only when `instance_type` is truthy and
`node_configuration_id is not None`; on a truthy new node id the ready
wait runs, and only a ready result returns the id.  Every external call
is recorded in the returned trace. -/
def rotateLoop (env : RotateEnv) (instance_type node_configuration_id : Option String)
    (node_template_labels : Option (List (String × String)))
    (node_template_tolerations : Option (List String)) (k : Nat) :
    Nat → Option String × List Op
  | 0 => (none, [])
  | fuel + 1 =>
    if truthyStr instance_type && node_configuration_id.isSome then
      let new_node_id := env.addNode k
      let addOp := Op.addNode (instance_type.getD "") (node_configuration_id.getD "")
        node_template_labels node_template_tolerations
      if truthyStr new_node_id then
        let w := wait_for_node_ready (env.waits k) 7 30 20
        let statusOps := List.replicate w.2 Op.getNodeStatus
        if w.1 then (new_node_id, addOp :: statusOps)
        else
          let r := rotateLoop env instance_type node_configuration_id
            node_template_labels node_template_tolerations (k + 1) fuel
          (r.1, addOp :: (statusOps ++ r.2))
      else
        let r := rotateLoop env instance_type node_configuration_id
          node_template_labels node_template_tolerations (k + 1) fuel
        (r.1, addOp :: r.2)
    else
      let r := rotateLoop env instance_type node_configuration_id
        node_template_labels node_template_tolerations (k + 1) fuel
      (r.1, r.2)

/-- The trace prefix of `rotate_node`: three label reads of the original
node (provisioner id, template name, instance type) and one catalog
fetch. -/
def rotateReadOps (node_name : String) : List Op :=
  [Op.readNode node_name, Op.readNode node_name, Op.readNode node_name, Op.getTemplates]

/-- Embedding of `rotate_node` (cast_api_utils.py lines 178-240): read
the three labels of the original node, fetch the template catalog,
resolve the template info, then run the bounded (`max_retries = 3`)
provisioning loop.  Returns the Python result (`nodeId` or `None`)
together with the trace of all operations issued. -/
def rotate_node (env : RotateEnv) (node_name : String) : Option String × List Op :=
  let _provisioner_node_id :=
    get_node_label_value (env.reads 0) "provisioner.cast.ai/node-id"
  let scheduling_node_template :=
    get_node_label_value (env.reads 1) "scheduling.cast.ai/node-template"
  let instance_type :=
    get_node_label_value (env.reads 2) "node.kubernetes.io/instance-type"
  let resolved := resolveTemplateInfo env.templates scheduling_node_template
  let r := rotateLoop env instance_type resolved.1 resolved.2.1 resolved.2.2 0 3
  (r.1, rotateReadOps node_name ++ r.2)

/-- A concrete rotation environment: the node carries the template label
`t1` but the catalog only holds a template named `t2`, so the template
lookup misses; the provisioning oracle would succeed if it were ever
asked. -/
def missingTemplateEnv : RotateEnv where
  reads := fun _ => .ok (some [("provisioner.cast.ai/node-id", "pid-1"),
    ("scheduling.cast.ai/node-template", "t1"),
    ("node.kubernetes.io/instance-type", "m5.large")])
  templates := [⟨some ⟨some "t2", some "c2", [], []⟩⟩]
  addNode := fun _ => some "new-node-1"
  waits := fun _ => ⟨0, fun _ => 0, fun _ => some (some "ready")⟩

/-- A concrete rotation environment: template `t1` resolves (configuration
id `c1`), but every `add_node` call fails, so every provisioning attempt
fails. -/
def failingProvisionEnv : RotateEnv where
  reads := fun _ => .ok (some [("provisioner.cast.ai/node-id", "pid-1"),
    ("scheduling.cast.ai/node-template", "t1"),
    ("node.kubernetes.io/instance-type", "m5.large")])
  templates := [⟨some ⟨some "t1", some "c1", [], [("team", "core")]⟩⟩]
  addNode := fun _ => none
  waits := fun _ => ⟨0, fun _ => 0, fun _ => none⟩

/-- A concrete rotation environment for the frame property: the template
resolves but provisioning always fails, so the rotation exhausts its
budget. -/
def frameEnv : RotateEnv where
  reads := fun _ => .ok (some [("provisioner.cast.ai/node-id", "pid-9"),
    ("scheduling.cast.ai/node-template", "tpl"),
    ("node.kubernetes.io/instance-type", "c5.xlarge")])
  templates := [⟨some ⟨some "tpl", some "cfg", ["dedicated"], []⟩⟩]
  addNode := fun _ => none
  waits := fun _ => ⟨0, fun _ => 0, fun _ => none⟩

/-! Helper lemmas. -/

theorem checkPodEntries_wellformed (m : List (String × String)) (cw : List String)
    (hent : ∀ e ∈ cw, (pySplit '=' e).length = 2) :
    checkPodEntries (some m) cw = .ok (cw.any fun e => podMatchesEntry ⟨some m⟩ e) := by
  induction cw with
  | nil => rfl
  | cons e rest ih =>
    have he : (pySplit '=' e).length = 2 := hent e (by simp)
    obtain ⟨k, v, hkv⟩ : ∃ k v, pySplit '=' e = [k, v] := by
      match hs : pySplit '=' e with
      | [k, v] => exact ⟨k, v, rfl⟩
      | [] => rw [hs] at he; simp at he
      | [x] => rw [hs] at he; simp at he
      | x :: y :: z :: t => rw [hs] at he; simp at he
    by_cases hm : m.lookup k = some v
    · simp [checkPodEntries, hkv, podMatchesEntry, hm]
    · have ih2 := ih (fun x hx => hent x (by simp [hx]))
      simp [checkPodEntries, hkv, podMatchesEntry, hm, ih2]

theorem waitForNewNodesAux_exhaust (snap : Nat → List KNode) (orig : List String) (m : Nat) :
    ∀ fuel i, (∀ j, j < fuel → (ready_new_nodes (snap (i + j)) orig).length < m) →
      waitForNewNodesAux snap orig m i fuel = none := by
  intro fuel
  induction fuel with
  | zero => intro i _; rfl
  | succ c ih =>
    intro i h
    have h0 : (ready_new_nodes (snap i) orig).length < m := by
      have := h 0 (by omega); simpa using this
    have hlt : ¬ m ≤ (ready_new_nodes (snap i) orig).length := by omega
    simp only [waitForNewNodesAux, if_neg hlt]
    refine ih (i + 1) (fun j hj => ?_)
    have heq : i + 1 + j = i + (j + 1) := by omega
    rw [heq]
    exact h (j + 1) (by omega)

theorem waitForNewNodesAux_first_hit (snap : Nat → List KNode) (orig : List String) (m : Nat) :
    ∀ j fuel i, j < fuel →
      m ≤ (ready_new_nodes (snap (i + j)) orig).length →
      (∀ t, t < j → (ready_new_nodes (snap (i + t)) orig).length < m) →
      waitForNewNodesAux snap orig m i fuel =
        some ((ready_new_nodes (snap (i + j)) orig).map KNode.name) := by
  intro j
  induction j with
  | zero =>
    intro fuel i hj hm _
    match fuel, hj with
    | fuel + 1, _ =>
      have hm0 : m ≤ (ready_new_nodes (snap i) orig).length := by simpa using hm
      simp [waitForNewNodesAux, hm0]
  | succ j ih =>
    intro fuel i hj hm hlt
    match fuel, hj with
    | fuel + 1, hj =>
      have h0 : (ready_new_nodes (snap i) orig).length < m := by
        have := hlt 0 (by omega); simpa using this
      have hneg : ¬ m ≤ (ready_new_nodes (snap i) orig).length := by omega
      simp only [waitForNewNodesAux, if_neg hneg]
      have heq : i + 1 + j = i + (j + 1) := by omega
      refine (ih fuel (i + 1) (by omega) (by rw [heq]; exact hm) (fun t ht => ?_)).trans ?_
      · have heqt : i + 1 + t = i + (t + 1) := by omega
        rw [heqt]
        exact hlt (t + 1) (by omega)
      · rw [heq]

theorem wfnrAux_count_le (ct : Nat → Nat) (p : Nat → Option (Option String)) (et mr : Nat) :
    ∀ fuel r, (wfnrAux ct p et mr r fuel).2 ≤ mr - r := by
  intro fuel
  induction fuel with
  | zero => intro r; exact Nat.zero_le _
  | succ f ih =>
    intro r
    by_cases h1 : ct r < et
    · by_cases h2 : mr ≤ r
      · simp [wfnrAux, h1, h2]
      · match hp : p r with
        | some phase =>
          by_cases h3 : phase = some "ready"
          · simp only [wfnrAux, if_pos h1, if_neg h2, hp, if_pos h3]
            omega
          · have hrec := ih (r + 1)
            simp only [wfnrAux, if_pos h1, if_neg h2, hp, if_neg h3]
            omega
        | none =>
          have hrec := ih (r + 1)
          simp only [wfnrAux, if_pos h1, if_neg h2, hp]
          omega
    · simp [wfnrAux, h1]

theorem wfnrAux_true_needs_ready (ct : Nat → Nat) (p : Nat → Option (Option String))
    (et mr : Nat) :
    ∀ fuel r, (wfnrAux ct p et mr r fuel).1 = true →
      ∃ k, r ≤ k ∧ k < mr ∧ p k = some (some "ready") := by
  intro fuel
  induction fuel with
  | zero => intro r h; exact absurd h (by simp [wfnrAux])
  | succ f ih =>
    intro r h
    by_cases h1 : ct r < et
    · by_cases h2 : mr ≤ r
      · rw [wfnrAux, if_pos h1, if_pos h2] at h
        exact absurd h (by simp)
      · match hp : p r with
        | some phase =>
          by_cases h3 : phase = some "ready"
          · exact ⟨r, Nat.le_refl r, by omega, by rw [hp, h3]⟩
          · simp only [wfnrAux, if_pos h1, if_neg h2, hp, if_neg h3] at h
            obtain ⟨k, hk1, hk2, hk3⟩ := ih (r + 1) h
            exact ⟨k, by omega, hk2, hk3⟩
        | none =>
          simp only [wfnrAux, if_pos h1, if_neg h2, hp] at h
          obtain ⟨k, hk1, hk2, hk3⟩ := ih (r + 1) h
          exact ⟨k, by omega, hk2, hk3⟩
    · rw [wfnrAux, if_neg h1] at h
      exact absurd h (by simp)

theorem wfnrAux_all_errors (ct : Nat → Nat) (p : Nat → Option (Option String)) (et mr : Nat)
    (htime : ∀ k, k ≤ mr → ct k < et) (herr : ∀ k, k < mr → p k = none) :
    ∀ fuel r, r ≤ mr → mr + 1 ≤ r + fuel → wfnrAux ct p et mr r fuel = (false, mr - r) := by
  intro fuel
  induction fuel with
  | zero => intro r h1 h2; omega
  | succ f ih =>
    intro r hr hf
    have h1 : ct r < et := htime r hr
    by_cases h2 : mr ≤ r
    · have hrm : r = mr := Nat.le_antisymm hr h2
      subst hrm
      simp [wfnrAux, h1, h2]
    · have hp := herr r (by omega)
      have hrec := ih (r + 1) (by omega) (by omega)
      simp only [wfnrAux, if_pos h1, if_neg h2, hp, hrec, Prod.mk.injEq]
      exact ⟨trivial, by omega⟩

/-! Claim theorems. -/

/-- C7: `wait_for_node_ready` performs at most `max_retries` status
fetches; it returns true only when some fetch within the budget observed
the exact phase string `"ready"`; if no fetch ever observes `"ready"` it
returns false (it never raises — its return type is total); an already
expired wall clock ends the wait at once with zero fetches; and fetches
that raise (`poll = none`) do not abort the loop — with the clock inside
the window they consume the whole poll budget and the wait still returns
false. -/
theorem wait_for_node_ready_bounds (w : WaitEnv) (tm ri mr : Nat) :
    (wait_for_node_ready w tm ri mr).2 ≤ mr
    ∧ ((wait_for_node_ready w tm ri mr).1 = true →
        ∃ k, k < mr ∧ w.poll k = some (some "ready"))
    ∧ ((∀ k, w.poll k ≠ some (some "ready")) → (wait_for_node_ready w tm ri mr).1 = false)
    ∧ (¬ w.checkTime 0 < w.startTime + tm * 60 → wait_for_node_ready w tm ri mr = (false, 0))
    ∧ ((∀ k, k ≤ mr → w.checkTime k < w.startTime + tm * 60) →
        (∀ k, k < mr → w.poll k = none) →
        wait_for_node_ready w tm ri mr = (false, mr)) := by
  refine ⟨?_, ?_, ?_, ?_, ?_⟩
  · have h := wfnrAux_count_le w.checkTime w.poll (w.startTime + tm * 60) mr (mr + 1) 0
    simpa [wait_for_node_ready] using h
  · intro h
    have h2 := wfnrAux_true_needs_ready w.checkTime w.poll (w.startTime + tm * 60) mr
      (mr + 1) 0 (by simpa [wait_for_node_ready] using h)
    obtain ⟨k, _, hk2, hk3⟩ := h2
    exact ⟨k, hk2, hk3⟩
  · intro h
    by_contra hb
    have hb2 : (wait_for_node_ready w tm ri mr).1 = true := by
      cases hv : (wait_for_node_ready w tm ri mr).1
      · exact absurd hv hb
      · rfl
    have h2 := wfnrAux_true_needs_ready w.checkTime w.poll (w.startTime + tm * 60) mr
      (mr + 1) 0 (by simpa [wait_for_node_ready] using hb2)
    obtain ⟨k, _, _, hk3⟩ := h2
    exact h k hk3
  · intro h
    simp [wait_for_node_ready, wfnrAux, h]
  · intro htime herr
    have h := wfnrAux_all_errors w.checkTime w.poll (w.startTime + tm * 60) mr htime herr
      (mr + 1) 0 (Nat.zero_le mr) (by omega)
    simpa [wait_for_node_ready] using h

/-- Witness for C7: with a clock frozen inside the window and every poll
raising, the wait consumes exactly its two-poll budget and reports
not-ready, without raising. -/
theorem wait_for_node_ready_bounds_witness :
    (wait_for_node_ready ⟨0, fun _ => 0, fun _ => none⟩ 1 30 2).1 = false
    ∧ wait_for_node_ready ⟨0, fun _ => 0, fun _ => none⟩ 1 30 2 = (false, 2) := by
  have h := wait_for_node_ready_bounds ⟨0, fun _ => 0, fun _ => none⟩ 1 30 2
  exact ⟨h.2.2.1 (fun k hk => nomatch hk),
    h.2.2.2.2 (fun k hk => show (0 : Nat) < 0 + 1 * 60 by decide) (fun k hk => rfl)⟩

theorem lookup_cons_self (k v : String) (l : List (String × String)) :
    List.lookup k ((k, v) :: l) = some v := by
  simp [List.lookup]

theorem lookup_cons_ne (a : String) (p : String × String) (l : List (String × String))
    (h : p.1 ≠ a) : List.lookup a (p :: l) = List.lookup a l := by
  obtain ⟨pk, pv⟩ := p
  have hne : (a == pk) = false := by
    rw [beq_eq_false_iff_ne]
    exact fun he => h he.symm
  simp only [List.lookup, hne]

theorem lookup_upsertLabel (m : List (String × String)) (k v : String) :
    (upsertLabel m k v).lookup k = some v := by
  unfold upsertLabel
  by_cases h : (m.lookup k).isSome
  · rw [if_pos h]
    induction m with
    | nil => simp at h
    | cons p rest ih =>
      rw [List.map_cons]
      by_cases hp : p.1 = k
      · rw [if_pos hp]
        exact lookup_cons_self k v _
      · rw [if_neg hp, lookup_cons_ne k _ _ hp]
        refine ih ?_
        rwa [lookup_cons_ne k p rest hp] at h
  · rw [if_neg h]
    induction m with
    | nil => exact lookup_cons_self k v []
    | cons p rest ih =>
      have hp : p.1 ≠ k := by
        intro he
        apply h
        obtain ⟨pk, pv⟩ := p
        cases he
        rw [List.lookup, beq_self_eq_true]
        rfl
      rw [List.cons_append, lookup_cons_ne k p _ hp]
      refine ih ?_
      intro h2
      apply h
      rwa [lookup_cons_ne k p rest hp]

theorem countP_statusOps (n : Nat) :
    (List.replicate n Op.getNodeStatus).countP Op.isAddNode = 0 := by
  induction n with
  | zero => rfl
  | succ m ih => simp [List.replicate, List.countP_cons, Op.isAddNode, ih]

theorem countP_rotateReadOps (node_name : String) :
    (rotateReadOps node_name).countP Op.isAddNode = 0 := rfl

theorem rotateLoop_guard_false (env : RotateEnv) (it cid : Option String)
    (lb : Option (List (String × String))) (tn : Option (List String))
    (h : (truthyStr it && cid.isSome) = false) :
    ∀ fuel k, rotateLoop env it cid lb tn k fuel = (none, []) := by
  intro fuel
  induction fuel with
  | zero => intro k; rfl
  | succ f ih =>
    intro k
    simp only [rotateLoop, h, Bool.false_eq_true, if_false, ih (k + 1)]

theorem rotateLoop_all_fail (env : RotateEnv) (it cid : Option String)
    (lb : Option (List (String × String))) (tn : Option (List String))
    (hg : (truthyStr it && cid.isSome) = true) :
    ∀ fuel k, (∀ i, i < fuel → attemptSucceeds env (k + i) = false) →
      (rotateLoop env it cid lb tn k fuel).1 = none
      ∧ (rotateLoop env it cid lb tn k fuel).2.countP Op.isAddNode = fuel := by
  intro fuel
  induction fuel with
  | zero => intro k _; exact ⟨rfl, rfl⟩
  | succ f ih =>
    intro k h
    have h0 : attemptSucceeds env k = false := by
      have := h 0 (by omega); simpa using this
    have hrec := ih (k + 1) (fun i hi => by
      have := h (i + 1) (by omega)
      rwa [show k + (i + 1) = k + 1 + i by omega] at this)
    by_cases ha : truthyStr (env.addNode k) = true
    · have hw : (wait_for_node_ready (env.waits k) 7 30 20).1 = false := by
        unfold attemptSucceeds at h0
        rw [ha] at h0
        simpa using h0
      constructor
      · simp only [rotateLoop, hg, if_true, ha, hw, Bool.false_eq_true, if_false]
        exact hrec.1
      · simp only [rotateLoop, hg, if_true, ha, hw, Bool.false_eq_true, if_false]
        rw [List.countP_cons_of_pos _ _ (by rfl), List.countP_append, countP_statusOps,
          hrec.2]
        omega
    · have ha2 : truthyStr (env.addNode k) = false := by simpa using ha
      constructor
      · simp only [rotateLoop, hg, if_true, ha2, Bool.false_eq_true, if_false]
        exact hrec.1
      · simp only [rotateLoop, hg, if_true, ha2, Bool.false_eq_true, if_false]
        rw [List.countP_cons_of_pos _ _ (by rfl), hrec.2]

theorem rotateLoop_first_success (env : RotateEnv) (it cid : Option String)
    (lb : Option (List (String × String))) (tn : Option (List String))
    (hg : (truthyStr it && cid.isSome) = true) :
    ∀ j fuel k, j < fuel → (∀ i, i < j → attemptSucceeds env (k + i) = false) →
      attemptSucceeds env (k + j) = true →
      (rotateLoop env it cid lb tn k fuel).1 = env.addNode (k + j)
      ∧ (rotateLoop env it cid lb tn k fuel).2.countP Op.isAddNode = j + 1 := by
  intro j
  induction j with
  | zero =>
    intro fuel k hj _ hsucc
    match fuel, hj with
    | f + 1, _ =>
      rw [Nat.add_zero] at hsucc
      unfold attemptSucceeds at hsucc
      rw [Bool.and_eq_true] at hsucc
      obtain ⟨ha, hw⟩ := hsucc
      constructor
      · simp only [rotateLoop, hg, if_true, ha, hw, Nat.add_zero]
      · simp only [rotateLoop, hg, if_true, ha, hw]
        rw [List.countP_cons_of_pos _ _ (by rfl), countP_statusOps]
  | succ j ih =>
    intro fuel k hj hprev hsucc
    match fuel, hj with
    | f + 1, hj2 =>
      have h0 : attemptSucceeds env k = false := by
        have := hprev 0 (by omega); simpa using this
      have hshift : k + 1 + j = k + (j + 1) := by omega
      have hrec := ih f (k + 1) (by omega)
        (fun i hi => by
          have := hprev (i + 1) (by omega)
          rwa [show k + (i + 1) = k + 1 + i by omega] at this)
        (by rwa [hshift])
      by_cases ha : truthyStr (env.addNode k) = true
      · have hw : (wait_for_node_ready (env.waits k) 7 30 20).1 = false := by
          unfold attemptSucceeds at h0
          rw [ha] at h0
          simpa using h0
        constructor
        · simp only [rotateLoop, hg, if_true, ha, hw, Bool.false_eq_true, if_false]
          rw [hrec.1, hshift]
        · simp only [rotateLoop, hg, if_true, ha, hw, Bool.false_eq_true, if_false]
          rw [List.countP_cons_of_pos _ _ (by rfl), List.countP_append, countP_statusOps,
            hrec.2]
          omega
      · have ha2 : truthyStr (env.addNode k) = false := by simpa using ha
        constructor
        · simp only [rotateLoop, hg, if_true, ha2, Bool.false_eq_true, if_false]
          rw [hrec.1, hshift]
        · simp only [rotateLoop, hg, if_true, ha2, Bool.false_eq_true, if_false]
          rw [List.countP_cons_of_pos _ _ (by rfl), hrec.2]

theorem rotateLoop_ops_subset (env : RotateEnv) (it cid : Option String)
    (lb : Option (List (String × String))) (tn : Option (List String)) :
    ∀ fuel k op, op ∈ (rotateLoop env it cid lb tn k fuel).2 →
      Op.isAddNode op = true ∨ op = Op.getNodeStatus := by
  intro fuel
  induction fuel with
  | zero => intro k op h; exact absurd h (List.not_mem_nil op)
  | succ f ih =>
    intro k op h
    by_cases hg : (truthyStr it && cid.isSome) = true
    · by_cases ha : truthyStr (env.addNode k) = true
      · by_cases hw : (wait_for_node_ready (env.waits k) 7 30 20).1 = true
        · simp only [rotateLoop, hg, if_true, ha, hw, List.mem_cons] at h
          rcases h with h | h
          · subst h; exact Or.inl rfl
          · exact Or.inr (List.eq_of_mem_replicate h)
        · have hw2 : (wait_for_node_ready (env.waits k) 7 30 20).1 = false := by
            simpa using hw
          simp only [rotateLoop, hg, if_true, ha, hw2, Bool.false_eq_true, if_false,
            List.mem_cons, List.mem_append] at h
          rcases h with h | h | h
          · subst h; exact Or.inl rfl
          · exact Or.inr (List.eq_of_mem_replicate h)
          · exact ih (k + 1) op h
      · have ha2 : truthyStr (env.addNode k) = false := by simpa using ha
        simp only [rotateLoop, hg, if_true, ha2, Bool.false_eq_true, if_false,
          List.mem_cons] at h
        rcases h with h | h
        · subst h; exact Or.inl rfl
        · exact ih (k + 1) op h
    · have hg2 : (truthyStr it && cid.isSome) = false := by simpa using hg
      simp only [rotateLoop, hg2, Bool.false_eq_true, if_false] at h
      exact ih (k + 1) op h

theorem isAddNode_not_mutates (op : Op) (name : String) (h : Op.isAddNode op = true) :
    Op.mutates op name = false := by
  cases op <;> simp [Op.isAddNode, Op.mutates] at h ⊢

/-- Counterexample to C1: in `missingTemplateEnv` the node's template
label `t1` is present but the catalog holds no template of that name, so
the resolver returns absent — and the orchestrator then makes NO
provisioning attempt at all (zero create-node calls, because the
`add_node` guard requires a non-`None` configuration id), contrary to the
claim that attempts proceed without overrides. -/
theorem missing_template_no_attempt_cex :
    get_node_label_value (missingTemplateEnv.reads 1) "scheduling.cast.ai/node-template" =
        some "t1"
    ∧ find_node_template_details missingTemplateEnv.templates "t1" = none
    ∧ (rotate_node missingTemplateEnv "node-a").2.countP Op.isAddNode = 0
    ∧ (rotate_node missingTemplateEnv "node-a").1 = none :=
  ⟨rfl, rfl, rfl, rfl⟩

/-- C1 as amended: when the node's template-name label is present but
the catalog contains no template of that name, the resolver returns
absent and `rotate_node` issues no provisioning attempt at all — the
create-node operation is never called (its guard requires a resolved
configuration id) and the rotation terminates with the absent result. -/
theorem rotate_node_missing_template_no_attempts (env : RotateEnv) (node_name s : String)
    (hs : get_node_label_value (env.reads 1) "scheduling.cast.ai/node-template" = some s)
    (hne : s ≠ "")
    (hmiss : find_node_template_details env.templates s = none) :
    (rotate_node env node_name).1 = none
    ∧ (rotate_node env node_name).2.countP Op.isAddNode = 0 := by
  have hres : resolveTemplateInfo env.templates
      (get_node_label_value (env.reads 1) "scheduling.cast.ai/node-template") =
      (none, none, none) := by
    rw [hs]
    simp [resolveTemplateInfo, hne, hmiss]
  have hloop := rotateLoop_guard_false env
    (get_node_label_value (env.reads 2) "node.kubernetes.io/instance-type")
    none none none (by simp) 3 0
  constructor
  · simp only [rotate_node, hres, hloop]
  · simp only [rotate_node, hres, hloop]
    rw [List.append_nil, countP_rotateReadOps]

/-- Witness for C1 as amended, at the concrete missing-template
environment. -/
theorem rotate_node_missing_template_no_attempts_witness :
    (rotate_node missingTemplateEnv "node-b").1 = none
    ∧ (rotate_node missingTemplateEnv "node-b").2.countP Op.isAddNode = 0 :=
  rotate_node_missing_template_no_attempts missingTemplateEnv "node-b" "t1" rfl
    (by decide) rfl

/-- C2: the three-way contract of `drain_node_with_timeout`.  On a clean
drain it returns the drained outcome (`none`, no pod list) and leaves the
node untouched; on timeout it returns the pods still scheduled on the
node, with the node uncordoned (`unschedulable = false`) and carrying the
failure label `drain-status=failed`; any other subprocess error is
re-raised to the caller. -/
theorem drain_node_with_timeout_contract (node_name : String) (st : NodeState)
    (env : DrainEnv) :
    (env.exec = .success →
      drain_node_with_timeout node_name st env = (.ok none, st, [Op.drainNode node_name]))
    ∧ (env.exec = .timeout →
      (drain_node_with_timeout node_name st env).1 = .ok (some env.podsOnNode)
      ∧ (drain_node_with_timeout node_name st env).2.1.unschedulable = false
      ∧ (drain_node_with_timeout node_name st env).2.1.labels.lookup "drain-status" =
          some "failed")
    ∧ (env.exec = .failure →
      drain_node_with_timeout node_name st env = (.error (), st, [Op.drainNode node_name])) := by
  refine ⟨?_, ?_, ?_⟩
  · intro h
    simp [drain_node_with_timeout, h]
  · intro h
    refine ⟨?_, ?_, ?_⟩ <;>
      simp [drain_node_with_timeout, h, dump_pods_on_node, label_node, uncordon_node,
        lookup_upsertLabel]
  · intro h
    simp [drain_node_with_timeout, h]

/-- Witness for C2: a timed-out drain on a cordoned node with two
remaining pods returns them, uncordons the node and labels it failed. -/
theorem drain_node_with_timeout_contract_witness :
    (drain_node_with_timeout "n1" ⟨true, []⟩ ⟨.timeout, ["p1", "p2"]⟩).1 =
        .ok (some ["p1", "p2"])
    ∧ (drain_node_with_timeout "n1" ⟨true, []⟩ ⟨.timeout, ["p1", "p2"]⟩).2.1.unschedulable =
        false
    ∧ (drain_node_with_timeout "n1" ⟨true, []⟩
        ⟨.timeout, ["p1", "p2"]⟩).2.1.labels.lookup "drain-status" = some "failed" :=
  (drain_node_with_timeout_contract "n1" ⟨true, []⟩ ⟨.timeout, ["p1", "p2"]⟩).2.1 rfl

/-- C3: with the source's `max_retries = 3`, when the instance type is
truthy and the template resolution produced a configuration id, a
rotation in which every provisioning attempt fails makes exactly 3
create-node calls and returns the absent result; and an attempt that
succeeds after `j` failures ends the loop at once with the new node id
after exactly `j + 1` create-node calls. -/
theorem rotate_node_retry_bound (env : RotateEnv) (node_name : String)
    (hit : truthyStr
      (get_node_label_value (env.reads 2) "node.kubernetes.io/instance-type") = true)
    (hcid : (resolveTemplateInfo env.templates
      (get_node_label_value (env.reads 1) "scheduling.cast.ai/node-template")).1.isSome =
        true) :
    ((∀ k, k < 3 → attemptSucceeds env k = false) →
      (rotate_node env node_name).1 = none
      ∧ (rotate_node env node_name).2.countP Op.isAddNode = 3)
    ∧ (∀ j, j < 3 → (∀ k, k < j → attemptSucceeds env k = false) →
        attemptSucceeds env j = true →
        (rotate_node env node_name).1 = env.addNode j
        ∧ (rotate_node env node_name).2.countP Op.isAddNode = j + 1) := by
  have hg : (truthyStr
      (get_node_label_value (env.reads 2) "node.kubernetes.io/instance-type") &&
      (resolveTemplateInfo env.templates
        (get_node_label_value (env.reads 1) "scheduling.cast.ai/node-template")).1.isSome) =
      true := by
    rw [hit, hcid]
    rfl
  constructor
  · intro hfail
    have hl := rotateLoop_all_fail env
      (get_node_label_value (env.reads 2) "node.kubernetes.io/instance-type")
      (resolveTemplateInfo env.templates
        (get_node_label_value (env.reads 1) "scheduling.cast.ai/node-template")).1
      (resolveTemplateInfo env.templates
        (get_node_label_value (env.reads 1) "scheduling.cast.ai/node-template")).2.1
      (resolveTemplateInfo env.templates
        (get_node_label_value (env.reads 1) "scheduling.cast.ai/node-template")).2.2
      hg 3 0 (fun i hi => by simpa using hfail i hi)
    constructor
    · simp only [rotate_node]
      exact hl.1
    · simp only [rotate_node]
      rw [List.countP_append, countP_rotateReadOps, hl.2]
  · intro j hj hprev hsucc
    have hl := rotateLoop_first_success env
      (get_node_label_value (env.reads 2) "node.kubernetes.io/instance-type")
      (resolveTemplateInfo env.templates
        (get_node_label_value (env.reads 1) "scheduling.cast.ai/node-template")).1
      (resolveTemplateInfo env.templates
        (get_node_label_value (env.reads 1) "scheduling.cast.ai/node-template")).2.1
      (resolveTemplateInfo env.templates
        (get_node_label_value (env.reads 1) "scheduling.cast.ai/node-template")).2.2
      hg j 3 0 hj (fun i hi => by simpa using hprev i hi) (by simpa using hsucc)
    constructor
    · simp only [rotate_node]
      rw [hl.1]
      norm_num
    · simp only [rotate_node]
      rw [List.countP_append, countP_rotateReadOps, hl.2]
      omega

/-- Witness for C3: in `failingProvisionEnv` every create-node call
returns no id, so all three attempts fail, exactly 3 create-node calls
appear in the trace and the rotation returns the absent result. -/
theorem rotate_node_retry_bound_witness :
    (rotate_node failingProvisionEnv "node-a").1 = none
    ∧ (rotate_node failingProvisionEnv "node-a").2.countP Op.isAddNode = 3 :=
  (rotate_node_retry_bound failingProvisionEnv "node-a" (by decide) (by decide)).1
    (fun k _ => rfl)

/-- C4: a rotation that terminates in exhaustion (absent result) issued
no mutating operation against the original node: every operation in its
trace is a label read of that node, a catalog fetch, a create-node call
or a status poll of the replacement — never a patch (cordon, uncordon,
label) or a drain of the original node. -/
theorem rotate_node_exhaustion_frame (env : RotateEnv) (node_name : String)
    (_hex : (rotate_node env node_name).1 = none) :
    ∀ op ∈ (rotate_node env node_name).2,
      Op.mutates op node_name = false
      ∧ (op = Op.readNode node_name ∨ op = Op.getTemplates
          ∨ Op.isAddNode op = true ∨ op = Op.getNodeStatus) := by
  intro op hop
  simp only [rotate_node, rotateReadOps, List.mem_append, List.mem_cons,
    List.not_mem_nil, or_false] at hop
  rcases hop with (h | h | h | h) | h
  · subst h
    exact ⟨rfl, Or.inl rfl⟩
  · subst h
    exact ⟨rfl, Or.inl rfl⟩
  · subst h
    exact ⟨rfl, Or.inl rfl⟩
  · subst h
    exact ⟨rfl, Or.inr (Or.inl rfl)⟩
  · rcases rotateLoop_ops_subset env _ _ _ _ 3 0 op h with h2 | h2
    · exact ⟨isAddNode_not_mutates op node_name h2, Or.inr (Or.inr (Or.inl h2))⟩
    · subst h2
      exact ⟨rfl, Or.inr (Or.inr (Or.inr rfl))⟩

/-- Witness for C4: in `frameEnv` the rotation exhausts its budget, and
the catalog-fetch operation in its trace mutates nothing. -/
theorem rotate_node_exhaustion_frame_witness :
    Op.mutates Op.getTemplates "node-a" = false
    ∧ (Op.getTemplates = Op.readNode "node-a" ∨ Op.getTemplates = Op.getTemplates
        ∨ Op.isAddNode Op.getTemplates = true ∨ Op.getTemplates = Op.getNodeStatus) :=
  rotate_node_exhaustion_frame frameEnv "node-a" rfl Op.getTemplates (by decide)

/-- C8: `is_node_older_than` returns true whenever `days = 0` regardless
of the creation time, and otherwise returns true exactly when the age
`now - creation` strictly exceeds `days + 1` days (the extra padding day
included). -/
theorem is_node_older_than_contract (now created : Int) (days : Nat) :
    (days = 0 → is_node_older_than now created days = true)
    ∧ (days ≠ 0 →
        (is_node_older_than now created days = true ↔
          now - created > ((days : Int) + 1) * 86400)) := by
  constructor
  · intro h0; simp [is_node_older_than, h0]
  · intro h0; simp [is_node_older_than, h0]

/-- Witness for C8: a zero-days node is stale at any age, and a node
three days old is stale for `days = 1` (age exceeds the padded two-day
threshold). -/
theorem is_node_older_than_contract_witness :
    is_node_older_than 5 0 0 = true ∧ is_node_older_than 259200 0 1 = true := by
  refine ⟨(is_node_older_than_contract 5 0 0).1 rfl, ?_⟩
  exact ((is_node_older_than_contract 259200 0 1).2 (by decide)).mpr (by decide)

/-- C10: `is_node_running_critical_pods` is not total: a pod whose label
map is `None` makes it raise (`AttributeError` on `.get`), and a
critical-workload entry with zero or with two `=` characters makes it
raise (`ValueError` unpacking `split("=")`), in each case instead of
returning `false`. -/
theorem critical_pods_raises_on_bad_inputs :
    is_node_running_critical_pods [⟨none⟩] ["app=web"] = .error .attributeError
    ∧ is_node_running_critical_pods [⟨some [("a", "b")]⟩] ["noequals"] = .error .valueError
    ∧ is_node_running_critical_pods [⟨some [("a", "b")]⟩] ["a=b=c"] = .error .valueError :=
  ⟨rfl, rfl, rfl⟩

/-- Counterexample to C5: the pod carries exactly the pair obtained by
splitting `"a=b=c"` on its FIRST `=` (key `"a"`, value `"b=c"`), so the
claim predicts `true`; the code instead splits on every `=` and raises a
`ValueError` unpacking the three pieces. -/
theorem critical_pods_first_split_cex :
    [("a", "b=c")].lookup "a" = some "b=c"
    ∧ pySplit '=' "a=b=c" = ["a", "b", "c"]
    ∧ is_node_running_critical_pods [⟨some [("a", "b=c")]⟩] ["a=b=c"] = .error .valueError :=
  ⟨rfl, rfl, rfl⟩

/-- C5 as amended: for pods that all carry a label map and
critical-workload entries that all split on `=` into exactly two pieces
(exactly one `=`), `is_node_running_critical_pods` returns `true` exactly
when some pod on the node carries the key/value pair of some entry, and
`false` otherwise; an entry with zero or several `=` characters is not
split at the first `=` but raises. -/
theorem critical_pods_wellformed_contract (pods : List VPod) (cw : List String)
    (hent : ∀ e ∈ cw, (pySplit '=' e).length = 2)
    (hlab : ∀ p ∈ pods, p.labels.isSome = true) :
    is_node_running_critical_pods pods cw =
      .ok (pods.any fun p => cw.any fun e => podMatchesEntry p e) := by
  induction pods with
  | nil => rfl
  | cons p rest ih =>
    obtain ⟨pl⟩ := p
    obtain ⟨m, rfl⟩ : ∃ m, pl = some m := by
      have := hlab ⟨pl⟩ (by simp)
      exact Option.isSome_iff_exists.mp this
    have hc := checkPodEntries_wellformed m cw hent
    have ihr := ih (fun q hq => hlab q (by simp [hq]))
    by_cases hb : (cw.any fun e => podMatchesEntry ⟨some m⟩ e) = true
    · simp [is_node_running_critical_pods, hc, hb]
    · have hb2 : (cw.any fun e => podMatchesEntry ⟨some m⟩ e) = false := by
        simpa using hb
      simp [is_node_running_critical_pods, hc, hb2, ihr]

/-- Witness for C5 as amended: one pod carrying `app=web`, a well-formed
entry list, evaluated through the contract. -/
theorem critical_pods_wellformed_contract_witness :
    is_node_running_critical_pods [⟨some [("app", "web")]⟩] ["app=web"] = .ok true := by
  have h := critical_pods_wellformed_contract [⟨some [("app", "web")]⟩] ["app=web"]
    (by decide) (by decide)
  exact h

/-- Counterexample to C6: with an empty node list, a minimum of one and a
one-cycle budget, `wait_for_new_nodes` exhausts its budget and returns
Python's implicit `None` (`Option.none`), not an empty list. -/
theorem wait_for_new_nodes_none_cex :
    wait_for_new_nodes (fun _ => []) [] 1 1 = none
    ∧ wait_for_new_nodes (fun _ => []) [] 1 1 ≠ some [] := by
  exact ⟨rfl, by decide⟩

/-- C6 as amended: `wait_for_new_nodes` returns exactly the names of the
listed nodes outside the original set whose `Ready`-typed conditions are
all `"True"`, at the first cycle where that subset's size reaches the
minimum; if no cycle within the budget reaches the minimum it returns
`None` (Python's implicit fall-through), not an empty list. -/
theorem wait_for_new_nodes_contract (snap : Nat → List KNode) (orig : List String)
    (m cycles : Nat) :
    ((∀ j, j < cycles → (ready_new_nodes (snap j) orig).length < m) →
        wait_for_new_nodes snap orig m cycles = none)
    ∧ (∀ j, j < cycles → m ≤ (ready_new_nodes (snap j) orig).length →
        (∀ t, t < j → (ready_new_nodes (snap t) orig).length < m) →
        wait_for_new_nodes snap orig m cycles =
          some ((ready_new_nodes (snap j) orig).map KNode.name)) := by
  constructor
  · intro h
    exact waitForNewNodesAux_exhaust snap orig m cycles 0 (by simpa using h)
  · intro j hj hm hlt
    have h := waitForNewNodesAux_first_hit snap orig m j cycles 0 hj
      (by simpa using hm) (by simpa using hlt)
    simpa using h

/-- Witness for C6 as amended: a single ready new node is returned at the
first cycle. -/
theorem wait_for_new_nodes_contract_witness :
    wait_for_new_nodes (fun _ => [⟨"n1", [⟨"Ready", "True"⟩]⟩]) [] 1 1 = some ["n1"] := by
  exact (wait_for_new_nodes_contract (fun _ => [⟨"n1", [⟨"Ready", "True"⟩]⟩]) [] 1 1).2
    0 (by decide) (by decide) (fun t ht => absurd ht (Nat.not_lt_zero t))

/-- C9: a node outside the original set with no condition of type
`Ready` at all vacuously passes the readiness filter of
`wait_for_new_nodes`: it appears in the ready-new list (so it counts
toward the minimum) and in the returned name list once the minimum is
reached. -/
theorem missing_ready_condition_counts_ready (nodes : List KNode) (orig : List String)
    (n : KNode) (hmem : n ∈ nodes) (hnew : orig.contains n.name = false)
    (hnoReady : ∀ c ∈ n.conditions, c.type ≠ "Ready") :
    n.name ∈ (ready_new_nodes nodes orig).map KNode.name
    ∧ (∀ snap m cycles, snap 0 = nodes → 0 < cycles →
        m ≤ (ready_new_nodes nodes orig).length →
        wait_for_new_nodes snap orig m cycles =
          some ((ready_new_nodes nodes orig).map KNode.name)) := by
  have hready : nodeReadyFilter n = true := by
    unfold nodeReadyFilter
    rw [List.all_eq_true]
    intro c hc
    simp [hnoReady c hc]
  have hnewname : (new_node_names nodes orig).contains n.name = true := by
    refine List.elem_iff.mpr ?_
    unfold new_node_names
    simp only [List.mem_map, List.mem_filter]
    refine ⟨n, ⟨hmem, ?_⟩, rfl⟩
    simp only [Bool.not_eq_true']
    exact hnew
  have hmemready : n ∈ ready_new_nodes nodes orig := by
    unfold ready_new_nodes
    rw [List.mem_filter]
    refine ⟨hmem, ?_⟩
    rw [hnewname, hready]
    rfl
  constructor
  · exact List.mem_map.mpr ⟨n, hmemready, rfl⟩
  · intro snap m cycles hsnap hc hm
    have h := waitForNewNodesAux_first_hit snap orig m 0 cycles 0 hc
      (by simpa [hsnap] using hm) (fun t ht => absurd ht (Nat.not_lt_zero t))
    simpa [hsnap] using h

/-- Witness for C9: node `n1` has an empty condition list and is counted
ready and returned. -/
theorem missing_ready_condition_counts_ready_witness :
    "n1" ∈ (ready_new_nodes [⟨"n1", []⟩, ⟨"o1", []⟩] ["o1"]).map KNode.name
    ∧ wait_for_new_nodes (fun _ => [⟨"n1", []⟩, ⟨"o1", []⟩]) ["o1"] 1 1 =
        some ((ready_new_nodes [⟨"n1", []⟩, ⟨"o1", []⟩] ["o1"]).map KNode.name) := by
  have h := missing_ready_condition_counts_ready [⟨"n1", []⟩, ⟨"o1", []⟩] ["o1"]
    ⟨"n1", []⟩ (by decide) (by decide) (by decide)
  exact ⟨h.1, h.2 (fun _ => [⟨"n1", []⟩, ⟨"o1", []⟩]) 1 1 rfl (by decide) (by decide)⟩
